import Mathlib

/-!
Verification of the provider-routing and streaming-failover core of the
`free_research_agent` repository (`app/core/router.py`, `app/core/providers.py`,
`app/core/config_loader.py`).

The embedding is shallow: Python objects become Lean structures, the mutable
registry becomes explicit state passing, and a provider's streaming behaviour
(an external backend call) is abstracted as a function from the attempt number
and registry slot to the attempt's observable outcome (the yielded chunks and
whether the generator raised).  Providers are identified by their registry
index; the Python code identifies them by object reference, which is
equivalent here because the registry is built once and never reshaped.
-/

/-- One chat message, a `{role, content}` pair (`List Dict[str, str]` entries
in the Python signatures).  The router forwards messages verbatim and never
inspects them. -/
def ChatMessage := String × String

/-- A provider as the router sees it: `BaseProvider.__init__` stores `name`,
`models` and a `failure_count` initialised to 0 (`providers.py`, lines 11-17).
The opaque `config` dict and the unused `is_active` flag are omitted: no code
under verification reads them. -/
structure Provider where
  name : String
  models : List String
  failure_count : Nat
deriving Repr, DecidableEq

/-- The mutable state of `ProviderRouter`: the registry list and the shared
routing cursor `current_index` (initialised to 0 in `__init__`). -/
structure RouterState where
  providers : List Provider
  current_index : Nat
deriving Repr, DecidableEq

/-- The health check in `get_provider`: `provider.failure_count < 3`
(`router.py`, line 46). -/
def healthy (p : Provider) : Bool :=
  p.failure_count < 3

/-- The capability check in `get_provider`:
`"*" in provider.models or model in provider.models` (`router.py`, line 48). -/
def supports (p : Provider) (model : String) : Bool :=
  p.models.contains "*" || p.models.contains model

/-- A registry slot is eligible when both nested `if`s of `get_provider`
pass (`router.py`, lines 46-49). -/
def eligible (p : Provider) (model : String) : Bool :=
  healthy p && supports p model

/-- The scanning loop of `ProviderRouter.get_provider` (`router.py`,
lines 41-51): advance the cursor by one slot (mod length), test that slot,
return it when eligible, and give up after `fuel` slots.  The result pairs the
found slot (if any) with the final cursor value.  The `none` arm of the inner
match is unreachable while the registry is non-empty (the index is taken mod
the length). -/
def selectAux (providers : List Provider) (model : String) : Nat → Nat → Option Nat × Nat
  | idx, 0 => (none, idx)
  | idx, fuel + 1 =>
    let idx2 := (idx + 1) % providers.length
    match providers[idx2]? with
    | some p => if eligible p model then (some idx2, idx2) else selectAux providers model idx2 fuel
    | none => (none, idx2)

/-- `ProviderRouter.get_provider` (`router.py`, lines 32-51): `None` on an
empty registry, otherwise a round-robin scan of at most `len(providers)`
slots.  Returns the chosen registry index (the Python code returns the
provider object at that index) together with the updated router state. -/
def get_provider (st : RouterState) (model : String) : Option Nat × RouterState :=
  if st.providers.isEmpty then (none, st)
  else
    match selectAux st.providers model st.current_index st.providers.length with
    | (r, idx) => (r, { st with current_index := idx })

/-- Pointwise list update used to model mutation of one registry slot. -/
def modifyAt (ps : List Provider) (i : Nat) (f : Provider → Provider) : List Provider :=
  match ps, i with
  | [], _ => []
  | p :: rest, 0 => f p :: rest
  | p :: rest, j + 1 => p :: modifyAt rest j f

/-- `ProviderRouter.report_success` (`router.py`, lines 57-58):
`provider.failure_count = 0`, applied to registry slot `i`. -/
def report_success (ps : List Provider) (i : Nat) : List Provider :=
  modifyAt ps i (fun p => { p with failure_count := 0 })

/-- `ProviderRouter.report_failure` (`router.py`, lines 53-55):
`provider.failure_count += 1`, applied to registry slot `i`. -/
def report_failure (ps : List Provider) (i : Nat) : List Provider :=
  modifyAt ps i (fun p => { p with failure_count := p.failure_count + 1 })

/-- A ghost record of one health-state mutation: which documented event
(`report_success` / `report_failure`) hit which registry slot. -/
inductive HealthEvent where
  | success (idx : Nat)
  | failure (idx : Nat)
deriving Repr, DecidableEq

/-- Apply one recorded health event to the registry. -/
def applyEvent (ps : List Provider) : HealthEvent → List Provider
  | .success i => report_success ps i
  | .failure i => report_failure ps i

/-- The registry slot an event touches. -/
def eventIdx : HealthEvent → Nat
  | .success i => i
  | .failure i => i

/-- The observable outcome of one provider attempt: the chunks the provider's
generator yielded, and whether it then completed normally or raised (with the
exception's message).  This abstracts the external backend call made by
`provider.stream_chat`. -/
inductive AttemptResult where
  | succeeds (chunks : List String)
  | raises (chunks : List String) (msg : String)
deriving Repr, DecidableEq

/-- A provider-behaviour assignment: what the provider at registry slot `idx`
does when its `stream_chat(model, messages)` is consumed during attempt
number `attempt` of one `ProviderRouter.stream_chat` call. -/
def Behavior := (attempt : Nat) → (idx : Nat) → (model : String) → (messages : List ChatMessage) → AttemptResult

/-- The health events one attempt generates inside the router's streaming
loop (`router.py`, lines 74-84): `report_success` once per yielded chunk,
then `report_failure` once if the generator raised. -/
def attemptEvents (idx : Nat) : AttemptResult → List HealthEvent
  | .succeeds cs => cs.map (fun _ => .success idx)
  | .raises cs _ => cs.map (fun _ => .success idx) ++ [.failure idx]

/-- Fold one attempt's health events into the router state. -/
def applyAttemptState (st : RouterState) (idx : Nat) (res : AttemptResult) : RouterState :=
  { st with providers := (attemptEvents idx res).foldl applyEvent st.providers }

/-- The `name` of the provider at a registry slot (used for the per-attempt
error summary `f"{provider.name}: {str(e)}"`). -/
def providerNameAt (ps : List Provider) (idx : Nat) : String :=
  match ps[idx]? with
  | some p => p.name
  | none => ""

/-- How one `ProviderRouter.stream_chat` call ends, as the caller observes it:
`success` with the full yielded chunk sequence (chunks forwarded from earlier
failed attempts included — they are never retracted), `noProvider` for the
`"No healthy providers available"` raise, or `allFailed` for the
`"All retries failed"` raise carrying the ordered per-attempt error
summaries.  The chunks/errors lists on the error outcomes are those
accumulated before the raise. -/
inductive StreamOutcome where
  | success (chunks : List String)
  | noProvider (chunks : List String) (errors : List String)
  | allFailed (chunks : List String) (errors : List String)
deriving Repr, DecidableEq

/-- Prepend one attempt's yielded chunks (and its error summary, when the
outcome is an error raise) onto the outcome of the remaining attempts. -/
def prependOutcome (cs : List String) (errs : List String) : StreamOutcome → StreamOutcome
  | .success chunks => .success (cs ++ chunks)
  | .noProvider chunks errors => .noProvider (cs ++ chunks) (errs ++ errors)
  | .allFailed chunks errors => .allFailed (cs ++ chunks) (errs ++ errors)

/-- The retry loop of `ProviderRouter.stream_chat` (`router.py`, lines 60-87),
one constructor application per `for attempt in range(retries)` iteration.
Returns the outcome, the final router state, and a ghost trace of every
`report_success` / `report_failure` call in execution order. -/
def streamChatAux (beh : Behavior) (model : String) (messages : List ChatMessage) :
    Nat → Nat → RouterState → StreamOutcome × RouterState × List HealthEvent
  | _, 0, st => (.allFailed [] [], st, [])
  | attempt, fuel + 1, st =>
    match get_provider st model with
    | (none, st1) => (.noProvider [] [], st1, [])
    | (some idx, st1) =>
      match beh attempt idx model messages with
      | .succeeds cs =>
        (.success cs, applyAttemptState st1 idx (.succeeds cs), attemptEvents idx (.succeeds cs))
      | .raises cs e =>
        let errMsg := providerNameAt st1.providers idx ++ ": " ++ e
        let r := streamChatAux beh model messages (attempt + 1) fuel (applyAttemptState st1 idx (.raises cs e))
        (prependOutcome cs [errMsg] r.1, r.2.1, attemptEvents idx (.raises cs e) ++ r.2.2)

/-- `ProviderRouter.stream_chat` (`router.py`, lines 60-87): the retry loop
with `retries = 3`, started at attempt 0 on the given router state. -/
def stream_chat (beh : Behavior) (model : String) (messages : List ChatMessage)
    (st : RouterState) : StreamOutcome × RouterState × List HealthEvent :=
  streamChatAux beh model messages 0 3 st

/-- A sequence of `n` consecutive `get_provider` calls (no streaming in
between), collecting each call's result; used to state round-robin
fairness. -/
def selectSeq (model : String) : Nat → RouterState → List (Option Nat) × RouterState
  | 0, st => ([], st)
  | n + 1, st =>
    let pr := get_provider st model
    let rest := selectSeq model n pr.2
    (pr.1 :: rest.1, rest.2)

/-- The failure counter at registry slot `i` (0 when the slot is out of
range). -/
def failuresAt (ps : List Provider) (i : Nat) : Nat :=
  ((ps[i]?).map Provider.failure_count).getD 0

-- Scenario fixtures shared by several scenario claims (built exactly like the
-- `MockProvider` instances of `tests/test_router.py`: wildcard models, fresh
-- counters).

/-- The always-failing mock provider `bad` of `test_router_fallback`. -/
def badP : Provider := { name := "bad", models := ["*"], failure_count := 0 }

/-- The always-succeeding mock provider `good` of `test_router_fallback`. -/
def goodP : Provider := { name := "good", models := ["*"], failure_count := 0 }

/-- Behaviour of the `test_router_fallback` registry `[bad, good]`: slot 0
always raises `"Mock Fail"` with no chunks, slot 1 always succeeds yielding
the single fragment `"Mock Response"`. -/
def behC1 : Behavior := fun _ idx _ _ =>
  if idx = 0 then .raises [] "Mock Fail" else .succeeds ["Mock Response"]

/-- The always-failing providers of `test_router_all_fail`. -/
def bad1P : Provider := { name := "bad1", models := ["*"], failure_count := 0 }

/-- Second always-failing provider of `test_router_all_fail`. -/
def bad2P : Provider := { name := "bad2", models := ["*"], failure_count := 0 }

/-- Behaviour where every provider always raises `"Mock Fail"` with no
chunks, as in `test_router_all_fail`. -/
def behAllFail : Behavior := fun _ _ _ _ => .raises [] "Mock Fail"

-- § Configuration and bootstrap (`config_loader.py`, `router.py` lines 16-30)

/-- One provider descriptor from the configuration source.  `type?` and
`name?` are `none` when the YAML mapping lacks the key (Python's
`cfg.get(key, default)` then supplies the default). -/
structure ProviderConfig where
  type? : Option String
  name? : Option String
  models : List String
deriving Repr, DecidableEq

/-- `cfg.get("type", "g4f")` (`router.py`, line 21). -/
def cfgType (cfg : ProviderConfig) : String := cfg.type?.getD "g4f"

/-- `cfg.get("name", "unnamed")` (`router.py`, line 22). -/
def cfgName (cfg : ProviderConfig) : String := cfg.name?.getD "unnamed"

/-- The provider record built from one accepted descriptor
(`BaseProvider.__init__`: fresh counter). -/
def mkProvider (cfg : ProviderConfig) : Provider :=
  { name := cfgName cfg, models := cfg.models, failure_count := 0 }

/-- `ProviderRouter._load_providers` (`router.py`, lines 16-30): keep the
descriptors whose type tag is `"g4f"` or `"openai"`, in order; any other tag
falls through both branches and contributes nothing.  The G4F/OpenAI class
distinction affects only the backend call, which this model abstracts as
`Behavior`, so both accepted branches build the same record here. -/
def router_load_providers : List ProviderConfig → List Provider
  | [] => []
  | cfg :: rest =>
    if cfgType cfg = "g4f" then mkProvider cfg :: router_load_providers rest
    else if cfgType cfg = "openai" then mkProvider cfg :: router_load_providers rest
    else router_load_providers rest

/-- The default descriptor `ConfigLoader.load_providers` appends when no
provider was configured (`config_loader.py`, lines 33-41). -/
def defaultG4FConfig : ProviderConfig :=
  { type? := some "g4f", name? := some "g4f-default", models := ["gpt-4", "gpt-3.5-turbo", "*"] }

/-- `ConfigLoader.load_providers` (`config_loader.py`, lines 13-43) as a
function of the descriptor list the YAML source supplied (`[]` when the file
is absent, unreadable, or lacks a `providers` key): inject the single default
G4F descriptor iff that list is empty. -/
def loader_load_providers (yamlProviders : List ProviderConfig) : List ProviderConfig :=
  if yamlProviders.isEmpty then [defaultG4FConfig] else yamlProviders

/-- `ProviderRouter.__init__` (`router.py`, lines 11-14): build the registry
from the configuration and start the cursor at 0. -/
def router_init (yamlProviders : List ProviderConfig) : RouterState :=
  { providers := router_load_providers (loader_load_providers yamlProviders), current_index := 0 }

-- § Python exceptions and the G4F provider (`providers.py`, lines 23-37)

/-- Exception values as the spec's taxonomy distinguishes them: a plain
`Exception(msg)`, or the spec's `ProviderError` wrapper carrying a provider
name and an underlying cause.  The source never constructs the wrapper; it is
here so that the wrapping claim can be stated and compared with what the code
does. -/
inductive PyExc where
  | generic (msg : String)
  | providerError (provider : String) (cause : PyExc)
deriving Repr, DecidableEq

/-- Whether an exception value is the spec's `ProviderError` wrapper. -/
def isProviderError : PyExc → Bool
  | .providerError _ _ => true
  | .generic _ => false

/-- The observable behaviour of the `g4f.ChatCompletion.create(..., stream=True)`
backend iterator: the chunks it yields, and the exception it raises after
them, if any. -/
inductive BackendStream where
  | yields (chunks : List String)
  | faults (chunks : List String) (e : PyExc)
deriving Repr, DecidableEq

/-- `G4FProvider.stream_chat` (`providers.py`, lines 23-37): relay every
truthy chunk (`if chunk: yield str(chunk)`); on any exception, log and
`raise e` — the very exception object, re-raised as is.  Result: the yielded
chunks and the exception that escaped, if any. -/
def g4f_stream_chat (_name : String) (backend : BackendStream) : List String × Option PyExc :=
  match backend with
  | .yields cs => (cs.filter (fun c => c != ""), none)
  | .faults cs e => (cs.filter (fun c => c != ""), some e)

-- § The OpenAI-compatible provider (`providers.py`, lines 39-79)

/-- A JSON value, the result of a successful `json.loads`. -/
inductive Json where
  | null
  | bool (b : Bool)
  | num (n : Int)
  | str (s : String)
  | arr (elems : List Json)
  | obj (fields : List (String × Json))

/-- Python truthiness of a JSON value (`if content:`). -/
def jsonTruthy : Json → Bool
  | .null => false
  | .bool b => b
  | .num n => n != 0
  | .str s => s != ""
  | .arr l => !l.isEmpty
  | .obj l => !l.isEmpty

/-- Python's `str.startswith`: char-level comparison of the candidate
against the start of the string. -/
def startsWithChars : List Char → List Char → Bool
  | [], _ => true
  | _ :: _, [] => false
  | a :: as, b :: bs => a == b && startsWithChars as bs

/-- `line.startswith(pre)`. -/
def pyStartsWith (s pre : String) : Bool := startsWithChars pre.data s.data

/-- Python's `str.strip()`: remove leading and trailing whitespace. -/
def pyStrip (s : String) : String :=
  ⟨((s.data.dropWhile Char.isWhitespace).reverse.dropWhile Char.isWhitespace).reverse⟩

/-- `data.get(key, default)`: defaulting field lookup on a dict; on a
non-dict value Python raises `AttributeError` (there is no `.get` method),
which the surrounding code does not catch. -/
def pyDictGet (j : Json) (key : String) (dflt : Json) : Except PyExc Json :=
  match j with
  | .obj fields => .ok ((fields.lookup key).getD dflt)
  | _ => .error (.generic "AttributeError")

/-- Python's `x[0]` when a list is expected: first element, `IndexError` on
an empty list, a type error on other values (none of them caught by the
surrounding code). -/
def pyIndexZero (j : Json) : Except PyExc Json :=
  match j with
  | .arr (x :: _) => .ok x
  | .arr [] => .error (.generic "IndexError")
  | _ => .error (.generic "TypeError")

/-- The content extraction of `OpenAIProvider.stream_chat` (`providers.py`,
lines 71-72): `data.get("choices", [{}])[0].get("delta", {}).get("content", "")`. -/
def extractContent (data : Json) : Except PyExc Json := do
  let choices ← pyDictGet data "choices" (.arr [.obj []])
  let c0 ← pyIndexZero choices
  let delta ← pyDictGet c0 "delta" (.obj [])
  pyDictGet delta "content" (.str "")

/-- The SSE line loop of `OpenAIProvider.stream_chat` (`providers.py`, lines
64-76), parameterised by the external `json.loads` (`none` models a
`json.JSONDecodeError`, the only exception the inner `try` catches): skip
lines without the `data: ` marker, `break` on the `[DONE]` sentinel, skip
malformed JSON, yield truthy extracted content.  Result: the yielded
fragments and the exception that escaped the loop, if any. -/
def processEvents (json_loads : String → Option Json) : List String → List Json × Option PyExc
  | [] => ([], none)
  | line :: rest =>
    if pyStartsWith line "data: " then
      let dataStr := line.drop 6
      if pyStrip dataStr = "[DONE]" then ([], none)
      else
        match json_loads dataStr with
        | none => processEvents json_loads rest
        | some data =>
          match extractContent data with
          | .error e => ([], some e)
          | .ok content =>
            if jsonTruthy content then
              let r := processEvents json_loads rest
              (content :: r.1, r.2)
            else processEvents json_loads rest
    else processEvents json_loads rest

/-- `OpenAIProvider.stream_chat` (`providers.py`, lines 49-79): a non-200
response status raises before any line is read; otherwise the SSE line loop
runs.  The outer `except Exception as e: ... raise e` re-raises unchanged and
so is the identity on the escaping exception. -/
def openai_stream_chat (name : String) (json_loads : String → Option Json)
    (status : Nat) (lines : List String) : List Json × Option PyExc :=
  if status ≠ 200 then
    ([], some (.generic ("Provider " ++ name ++ " returned " ++ toString status)))
  else processEvents json_loads lines

/-- The JSON shape of a well-formed fragment event: an object carrying the
fragment string at `choices[0].delta.content`. -/
def validFragmentJson (c : String) : Json :=
  .obj [("choices", .arr [.obj [("delta", .obj [("content", .str c)])]])]

-- § Spec-side definitions for the selection-contract refinement (C3)

/-- Eligibility of the registry slot `i` (false when out of range). -/
def eligAt (ps : List Provider) (model : String) (i : Nat) : Bool :=
  match ps[i]? with
  | some p => eligible p model
  | none => false

/-- Stated from the spec's words for `select` (§4.2): scan the slots
`(cursor + 1 + k) mod length` for `k = 0 .. length - 1` and return the first
eligible one. -/
def select_spec (st : RouterState) (model : String) : Option Nat :=
  (((List.range st.providers.length).map
      (fun k => (st.current_index + 1 + k) % st.providers.length)).find?
    (eligAt st.providers model))

/-- Stated from the spec's words: the cursor after a `select` call — the
returned slot when one is found, else the position after a full rotation
(every scanned slot advanced it once). -/
def cursor_after_spec (st : RouterState) (model : String) : Nat :=
  match select_spec st model with
  | some i => i
  | none => (st.current_index + st.providers.length) % st.providers.length

-- § Lemmas about selection

/-- First eligible slot among the `fuel` slots scanned from cursor `idx`. -/
def findFirstSlot (ps : List Provider) (model : String) (idx fuel : Nat) : Option Nat :=
  ((List.range fuel).map (fun k => (idx + 1 + k) % ps.length)).find? (eligAt ps model)

lemma select_spec_eq_findFirstSlot (st : RouterState) (model : String) :
    select_spec st model = findFirstSlot st.providers model st.current_index st.providers.length := rfl

lemma selectAux_eq_find (ps : List Provider) (model : String) (h : ps ≠ []) :
    ∀ fuel idx, 0 < fuel →
      selectAux ps model idx fuel =
        (findFirstSlot ps model idx fuel,
         (findFirstSlot ps model idx fuel).getD ((idx + fuel) % ps.length)) := by
  intro fuel
  induction fuel with
  | zero => intro idx h0; exact absurd h0 (by omega)
  | succ f ih =>
    intro idx _
    have hn : 0 < ps.length := List.length_pos.mpr h
    have hidx2 : (idx + 1) % ps.length < ps.length := Nat.mod_lt _ hn
    have helig : eligAt ps model ((idx + 1) % ps.length)
        = eligible ps[(idx + 1) % ps.length] model := by
      simp [eligAt, List.getElem?_eq_getElem hidx2]
    rw [selectAux, List.getElem?_eq_getElem hidx2]
    have hhead : findFirstSlot ps model idx (f + 1)
        = ((((idx + 1) % ps.length) ::
            (List.range f).map (fun k => (idx + 1 + Nat.succ k) % ps.length)).find?
          (eligAt ps model)) := by
      simp only [findFirstSlot, List.range_succ_eq_map, List.map_cons, List.map_map]
      congr 1
    cases he : eligible ps[(idx + 1) % ps.length] model with
    | true =>
      simp only [he, if_true]
      rw [hhead, List.find?_cons_of_pos _ (helig.trans he)]
      rfl
    | false =>
      simp only [he, Bool.false_eq_true, if_false]
      rw [hhead, List.find?_cons_of_neg _ (by rw [helig, he]; exact Bool.false_ne_true)]
      have hmapeq : (List.range f).map (fun k => ((idx + 1) % ps.length + 1 + k) % ps.length)
          = (List.range f).map (fun k => (idx + 1 + Nat.succ k) % ps.length) := by
        refine congrArg (fun g => (List.range f).map g) (funext fun k => ?_)
        rw [Nat.add_assoc, Nat.mod_add_mod]
        congr 1
        omega
      rcases Nat.eq_zero_or_pos f with hf | hf
      · subst hf
        simp [selectAux, findFirstSlot]
      · rw [ih ((idx + 1) % ps.length) hf]
        unfold findFirstSlot
        rw [hmapeq]
        have hcursor : ((idx + 1) % ps.length + f) % ps.length
            = (idx + (f + 1)) % ps.length := by
          rw [Nat.mod_add_mod]
          congr 1
          omega
        rw [hcursor]

lemma get_provider_eq_spec (st : RouterState) (model : String) (h : st.providers ≠ []) :
    get_provider st model
      = (select_spec st model, { st with current_index := cursor_after_spec st model }) := by
  have hn : 0 < st.providers.length := List.length_pos.mpr h
  have hne : st.providers.isEmpty = false := by
    cases hl : st.providers with
    | nil => exact absurd hl h
    | cons a l => rfl
  rw [get_provider, hne]
  simp only [Bool.false_eq_true, if_false]
  rw [selectAux_eq_find st.providers model h st.providers.length st.current_index hn]
  rw [select_spec_eq_findFirstSlot]
  unfold cursor_after_spec
  rw [select_spec_eq_findFirstSlot]
  cases hr : findFirstSlot st.providers model st.current_index st.providers.length <;> rfl

lemma get_provider_providers (st : RouterState) (model : String) :
    (get_provider st model).2.providers = st.providers := by
  rw [get_provider]
  cases he : st.providers.isEmpty <;> simp

lemma eligAt_true_elim {ps : List Provider} {model : String} {i : Nat}
    (h : eligAt ps model i = true) :
    i < ps.length ∧ failuresAt ps i < 3 := by
  unfold eligAt at h
  cases hp : ps[i]? with
  | none => rw [hp] at h; exact absurd h (by simp)
  | some p =>
    rw [hp] at h
    have hlt : i < ps.length := by
      by_contra hge
      rw [List.getElem?_eq_none (by omega)] at hp
      exact Option.noConfusion hp
    refine ⟨hlt, ?_⟩
    simp only [eligible, Bool.and_eq_true] at h
    have : p.failure_count < 3 := of_decide_eq_true h.1
    simp [failuresAt, hp, this]

lemma get_provider_some_elim {st : RouterState} {model : String} {i : Nat} {st' : RouterState}
    (h : get_provider st model = (some i, st')) :
    i < st.providers.length ∧ failuresAt st.providers i < 3
      ∧ st' = { st with current_index := i } := by
  have hne : st.providers ≠ [] := by
    intro habs
    rw [get_provider] at h
    rw [habs] at h
    simp at h
  rw [get_provider_eq_spec st model hne] at h
  have h1 : select_spec st model = some i := congrArg Prod.fst h
  have h2 : st' = { st with current_index := cursor_after_spec st model } := (congrArg Prod.snd h).symm
  have helig : eligAt st.providers model i = true := by
    rw [select_spec_eq_findFirstSlot] at h1
    exact List.find?_some h1
  rcases eligAt_true_elim helig with ⟨hlt, hcnt⟩
  refine ⟨hlt, hcnt, ?_⟩
  rw [h2]
  have : cursor_after_spec st model = i := by
    unfold cursor_after_spec
    rw [h1]
  rw [this]

-- § Lemmas about health-counter mutation

lemma modifyAt_getElem? (f : Provider → Provider) :
    ∀ (ps : List Provider) (i j : Nat),
      (modifyAt ps i f)[j]? = if j = i then (ps[j]?).map f else ps[j]? := by
  intro ps
  induction ps with
  | nil => intro i j; simp [modifyAt]
  | cons p rest ih =>
    intro i j
    cases i with
    | zero =>
      cases j with
      | zero => simp [modifyAt]
      | succ j' => simp [modifyAt]
    | succ i' =>
      cases j with
      | zero => simp [modifyAt]
      | succ j' =>
        simp only [modifyAt, List.getElem?_cons_succ, ih i' j']
        by_cases hij : j' = i' <;> simp [hij]

lemma failuresAt_applyEvent_ne (ps : List Provider) (e : HealthEvent) (i : Nat)
    (h : eventIdx e ≠ i) :
    failuresAt (applyEvent ps e) i = failuresAt ps i := by
  cases e with
  | success j =>
    have hji : i ≠ j := fun hc => h (hc ▸ rfl)
    simp [applyEvent, report_success, failuresAt, modifyAt_getElem?, hji]
  | failure j =>
    have hji : i ≠ j := fun hc => h (hc ▸ rfl)
    simp [applyEvent, report_failure, failuresAt, modifyAt_getElem?, hji]

lemma failuresAt_applyEvent_success (ps : List Provider) (j : Nat) :
    failuresAt (applyEvent ps (.success j)) j = 0 := by
  simp only [applyEvent, report_success, failuresAt, modifyAt_getElem?, if_pos rfl]
  cases ps[j]? <;> simp

lemma failuresAt_foldl_ne :
    ∀ (evs : List HealthEvent) (ps : List Provider) (i : Nat),
      (∀ e ∈ evs, eventIdx e ≠ i) →
      failuresAt (evs.foldl applyEvent ps) i = failuresAt ps i := by
  intro evs
  induction evs with
  | nil => intro ps i _; rfl
  | cons e rest ih =>
    intro ps i h
    rw [List.foldl_cons, ih (applyEvent ps e) i (fun e' he' => h e' (List.mem_cons_of_mem e he')),
      failuresAt_applyEvent_ne ps e i (h e (List.mem_cons_self e rest))]

lemma failuresAt_foldl_le :
    ∀ (evs : List HealthEvent) (ps : List Provider) (i : Nat),
      HealthEvent.failure i ∉ evs →
      failuresAt (evs.foldl applyEvent ps) i ≤ failuresAt ps i := by
  intro evs
  induction evs with
  | nil => intro ps i _; exact Nat.le_refl _
  | cons e rest ih =>
    intro ps i h
    have hrest : HealthEvent.failure i ∉ rest := fun hc => h (List.mem_cons_of_mem e hc)
    have hstep : failuresAt (applyEvent ps e) i ≤ failuresAt ps i := by
      cases e with
      | success j =>
        by_cases hji : j = i
        · subst hji
          rw [failuresAt_applyEvent_success]
          exact Nat.zero_le _
        · rw [failuresAt_applyEvent_ne ps (.success j) i hji]
      | failure j =>
        have hji : j ≠ i := fun hc => h (by rw [hc]; exact List.mem_cons_self _ _)
        rw [failuresAt_applyEvent_ne ps (.failure j) i hji]
    exact Nat.le_trans (ih (applyEvent ps e) i hrest) hstep

lemma eventIdx_attemptEvents (idx : Nat) (res : AttemptResult) :
    ∀ e ∈ attemptEvents idx res, eventIdx e = idx := by
  cases res with
  | succeeds cs =>
    intro e he
    simp only [attemptEvents, List.mem_map] at he
    rcases he with ⟨_, _, rfl⟩
    rfl
  | raises cs msg =>
    intro e he
    simp only [attemptEvents, List.mem_append, List.mem_map, List.mem_singleton] at he
    rcases he with ⟨_, _, rfl⟩ | rfl <;> rfl

lemma failure_not_mem_succeeds_events (i idx : Nat) (cs : List String) :
    HealthEvent.failure i ∉ attemptEvents idx (.succeeds cs) := by
  simp [attemptEvents, List.mem_map]

-- § Lemmas about the retry loop

lemma applyAttemptState_providers (st : RouterState) (idx : Nat) (res : AttemptResult) :
    (applyAttemptState st idx res).providers
      = (attemptEvents idx res).foldl applyEvent st.providers := rfl

lemma streamChatAux_trace (beh : Behavior) (model : String) (messages : List ChatMessage) :
    ∀ (fuel attempt : Nat) (st : RouterState),
      (streamChatAux beh model messages attempt fuel st).2.1.providers
        = ((streamChatAux beh model messages attempt fuel st).2.2).foldl applyEvent st.providers := by
  intro fuel
  induction fuel with
  | zero => intro attempt st; rfl
  | succ f ih =>
    intro attempt st
    rw [streamChatAux]
    rcases hgp : get_provider st model with ⟨r, st1⟩
    have hpres : st1.providers = st.providers := by
      rw [← get_provider_providers st model, hgp]
    cases r with
    | none => simpa using hpres
    | some idx =>
      dsimp only
      cases hb : beh attempt idx model messages with
      | succeeds cs =>
        dsimp only
        simp only [applyAttemptState_providers, hpres]
      | raises cs e =>
        dsimp only
        rw [List.foldl_append, ← hpres, ← applyAttemptState_providers st1 idx (.raises cs e)]
        exact ih (attempt + 1) (applyAttemptState st1 idx (.raises cs e))

lemma streamChatAux_untouched (beh : Behavior) (model : String) (messages : List ChatMessage)
    (i : Nat) :
    ∀ (fuel attempt : Nat) (st : RouterState),
      3 ≤ failuresAt st.providers i →
      failuresAt ((streamChatAux beh model messages attempt fuel st).2.1.providers) i
        = failuresAt st.providers i := by
  intro fuel
  induction fuel with
  | zero => intro attempt st _; rfl
  | succ f ih =>
    intro attempt st h3
    rw [streamChatAux]
    rcases hgp : get_provider st model with ⟨r, st1⟩
    have hpres : st1.providers = st.providers := by
      rw [← get_provider_providers st model, hgp]
    cases r with
    | none => simpa using congrArg (fun ps => failuresAt ps i) hpres
    | some idx =>
      have hidx : failuresAt st.providers idx < 3 := (get_provider_some_elim hgp).2.1
      have hne : idx ≠ i := fun hc => by rw [hc] at hidx; omega
      have hev : ∀ res, failuresAt ((applyAttemptState st1 idx res).providers) i
          = failuresAt st.providers i := by
        intro res
        rw [applyAttemptState_providers, failuresAt_foldl_ne _ _ _
          (fun e he => by rw [eventIdx_attemptEvents idx res e he]; exact hne), hpres]
      dsimp only
      cases hb : beh attempt idx model messages with
      | succeeds cs =>
        dsimp only
        exact hev (.succeeds cs)
      | raises cs e =>
        dsimp only
        rw [ih (attempt + 1) (applyAttemptState st1 idx (.raises cs e)) (by rw [hev]; exact h3),
          hev]

lemma router_load_providers_all_unknown :
    ∀ configs : List ProviderConfig,
      (∀ cfg ∈ configs, cfgType cfg ≠ "g4f" ∧ cfgType cfg ≠ "openai") →
      router_load_providers configs = [] := by
  intro configs
  induction configs with
  | nil => intro _; rfl
  | cons cfg rest ih =>
    intro h
    rw [router_load_providers, if_neg (h cfg (List.mem_cons_self cfg rest)).1,
      if_neg (h cfg (List.mem_cons_self cfg rest)).2]
    exact ih (fun c hc => h c (List.mem_cons_of_mem _ hc))

-- § Claim theorems

/-- C1: Failover scenario — for the registry `[bad, good]` where `bad` always
raises and `good` always succeeds yielding the single fragment
`"Mock Response"`, with the cursor at 1 so that `bad` (slot 0) is tried
first, `stream_chat("test-model", non-empty messages)` yields exactly
`["Mock Response"]`, and afterwards `bad.failure_count = 1` and
`good.failure_count = 0`. -/
theorem router_failover_scenario :
    (stream_chat behC1 "test-model" [("user", "hi")] ⟨[badP, goodP], 1⟩).1
        = .success ["Mock Response"]
      ∧ failuresAt (stream_chat behC1 "test-model" [("user", "hi")]
          ⟨[badP, goodP], 1⟩).2.1.providers 0 = 1
      ∧ failuresAt (stream_chat behC1 "test-model" [("user", "hi")]
          ⟨[badP, goodP], 1⟩).2.1.providers 1 = 0 := by
  decide

/-- C2 counterexample: with the registry `[bad1, bad2]` (both always raising,
fresh counters, cursor 0), `stream_chat` exhausts `retries = 3` attempts, not
2: the raised error records three per-attempt causes, so "exactly 2 attempts
(bounded by registry size and the retry cap) with both causes recorded" is
false on the code. -/
theorem router_exhaustion_counterexample :
    stream_chat behAllFail "m" [("user", "hi")] ⟨[bad1P, bad2P], 0⟩
      = (.allFailed [] ["bad2: Mock Fail", "bad1: Mock Fail", "bad2: Mock Fail"],
         ⟨[⟨"bad1", ["*"], 1⟩, ⟨"bad2", ["*"], 2⟩], 1⟩,
         [.failure 1, .failure 0, .failure 1])
    ∧ ["bad2: Mock Fail", "bad1: Mock Fail", "bad2: Mock Fail"].length ≠ 2 := by
  decide

/-- C2 amended: with registry `[bad1, bad2]` both always raising (no chunks,
arbitrary per-slot error messages) and cursor 0, `stream_chat` raises
`AllProvidersFailed` after exactly 3 attempts — `MAX_RETRIES`, not the
registry size — with the three per-attempt causes recorded in order
(`bad2`, `bad1`, `bad2`: slot 1 is scanned first from cursor 0 and is
attempted twice), leaving `bad1.failure_count = 1`, `bad2.failure_count = 2`. -/
theorem router_exhaustion_three_attempts (err : Nat → String) :
    stream_chat (fun _ idx _ _ => .raises [] (err idx)) "m" [("user", "hi")]
        ⟨[bad1P, bad2P], 0⟩
      = (.allFailed [] ["bad2: " ++ err 1, "bad1: " ++ err 0, "bad2: " ++ err 1],
         ⟨[⟨"bad1", ["*"], 1⟩, ⟨"bad2", ["*"], 2⟩], 1⟩,
         [.failure 1, .failure 0, .failure 1]) := by
  have hgp0 : get_provider ⟨[bad1P, bad2P], 0⟩ "m" = (some 1, ⟨[bad1P, bad2P], 1⟩) := by
    decide
  have hgp1 : get_provider ⟨[bad1P, ⟨"bad2", ["*"], 1⟩], 1⟩ "m"
      = (some 0, ⟨[bad1P, ⟨"bad2", ["*"], 1⟩], 0⟩) := by decide
  have hgp2 : get_provider ⟨[⟨"bad1", ["*"], 1⟩, ⟨"bad2", ["*"], 1⟩], 0⟩ "m"
      = (some 1, ⟨[⟨"bad1", ["*"], 1⟩, ⟨"bad2", ["*"], 1⟩], 1⟩) := by decide
  unfold stream_chat
  rw [streamChatAux, hgp0]
  dsimp only
  rw [show applyAttemptState ⟨[bad1P, bad2P], 1⟩ 1 (.raises [] (err 1))
      = ⟨[bad1P, ⟨"bad2", ["*"], 1⟩], 1⟩ from rfl]
  rw [streamChatAux, hgp1]
  dsimp only
  rw [show applyAttemptState ⟨[bad1P, ⟨"bad2", ["*"], 1⟩], 0⟩ 0 (.raises [] (err 0))
      = ⟨[⟨"bad1", ["*"], 1⟩, ⟨"bad2", ["*"], 1⟩], 0⟩ from rfl]
  rw [streamChatAux, hgp2]
  dsimp only
  rfl

/-- C5: Empty-registry behaviour — for every model, `get_provider` on an
empty registry returns `None` without moving the cursor, and `stream_chat`
raises `NoProviderAvailable` at once: for every provider behaviour the result
is the same (`noProvider` with no chunks, no recorded attempt errors, no
health events), so no provider's stream was consumed and no retry happened. -/
theorem router_empty_registry (beh : Behavior) (model : String)
    (messages : List ChatMessage) (c : Nat) :
    get_provider ⟨[], c⟩ model = (none, ⟨[], c⟩)
    ∧ stream_chat beh model messages ⟨[], c⟩ = (.noProvider [] [], ⟨[], c⟩, []) := by
  refine ⟨rfl, ?_⟩
  unfold stream_chat
  rw [streamChatAux, show get_provider ⟨[], c⟩ model = (none, ⟨[], c⟩) from rfl]

/-- C8 counterexample: the local-execution (G4F) provider does not wrap a
backend fault in the spec's `ProviderError`: on a backend raising
`Exception("boom")` the exception escaping `G4FProvider.stream_chat` is that
very raw exception (`raise e`), not a `ProviderError` wrapper. -/
theorem g4f_wraps_counterexample :
    (g4f_stream_chat "g4f-default" (.faults [] (.generic "boom"))).2
        = some (.generic "boom")
    ∧ isProviderError (.generic "boom") = false := by
  decide

/-- C8 amended: any fault raised by the underlying G4F completion mechanism
during the local provider's stream operation is logged and re-raised
unchanged — the raw exception, not a `ProviderError` wrapper, propagates to
the caller (the router's failover loop catches it there). -/
theorem g4f_reraises_raw (name : String) (cs : List String) (e : PyExc) :
    (g4f_stream_chat name (.faults cs e)).2 = some e := rfl

/-- C10: unknown provider types are silently dropped at bootstrap — for a
non-empty configuration list whose every descriptor has a type tag other
than `"g4f"` and `"openai"`, the loader passes the list through unchanged
(the default provider is injected only for an empty list), the built
registry is empty, and every subsequent selection returns `None`. -/
theorem bootstrap_unknown_types_dropped (configs : List ProviderConfig)
    (hne : configs ≠ [])
    (hunk : ∀ cfg ∈ configs, cfgType cfg ≠ "g4f" ∧ cfgType cfg ≠ "openai") :
    loader_load_providers configs = configs
    ∧ (router_init configs).providers = []
    ∧ (∀ model, get_provider (router_init configs) model = (none, router_init configs))
    ∧ loader_load_providers [] = [defaultG4FConfig] := by
  have hload : loader_load_providers configs = configs := by
    unfold loader_load_providers
    rw [if_neg]
    simp [List.isEmpty_iff, hne]
  have hreg : router_init configs = ⟨[], 0⟩ := by
    unfold router_init
    rw [hload, router_load_providers_all_unknown configs hunk]
  refine ⟨hload, by rw [hreg], fun model => by rw [hreg]; rfl, rfl⟩

/-- C10 witness: a one-element configuration list with the unknown type tag
`"mystery"` yields an empty registry and no default injection. -/
theorem bootstrap_unknown_types_dropped_witness :
    loader_load_providers [⟨some "mystery", some "x", ["*"]⟩]
        = [⟨some "mystery", some "x", ["*"]⟩]
      ∧ (router_init [⟨some "mystery", some "x", ["*"]⟩]).providers = []
      ∧ (∀ model, get_provider (router_init [⟨some "mystery", some "x", ["*"]⟩]) model
          = (none, router_init [⟨some "mystery", some "x", ["*"]⟩]))
      ∧ loader_load_providers [] = [defaultG4FConfig] :=
  bootstrap_unknown_types_dropped [⟨some "mystery", some "x", ["*"]⟩]
    (by decide) (by decide)

/-- C3: Selection contract — on every non-empty registry, `get_provider`
returns exactly what the spec's `select` prescribes: the first eligible slot
of the scan that starts at `(cursor + 1) mod length` and visits at most
`length` slots (`select_spec`), with the cursor left on the returned slot, or
— when no slot is eligible — `None` with the cursor advanced through the full
rotation (`cursor_after_spec`); the registry itself is untouched. -/
theorem selection_contract (st : RouterState) (model : String) (h : st.providers ≠ []) :
    get_provider st model
      = (select_spec st model, { st with current_index := cursor_after_spec st model }) :=
  get_provider_eq_spec st model h

/-- C3 witness: the contract instantiated on a concrete one-provider
registry. -/
theorem selection_contract_witness :
    get_provider ⟨[goodP], 0⟩ "m"
      = (select_spec ⟨[goodP], 0⟩ "m",
         { providers := [goodP], current_index := cursor_after_spec ⟨[goodP], 0⟩ "m" }) :=
  selection_contract ⟨[goodP], 0⟩ "m" (by decide)

/-- C4: Health invariant — (1) a provider whose `failure_count` has reached
the threshold 3 is never returned by selection; (2) such a provider's counter
is untouched by a whole `stream_chat` call (it stays excluded until some
success event elsewhere changes the state); (3) the registry after any
`stream_chat` call is exactly the initial registry with the call's ghost
trace of `report_success` (reset to 0) / `report_failure` (increment by 1)
events folded in — the counters change through those two events only. -/
theorem health_invariant :
    (∀ (st : RouterState) (model : String) (idx : Nat) (st' : RouterState),
        get_provider st model = (some idx, st') → failuresAt st.providers idx < 3)
    ∧ (∀ (beh : Behavior) (model : String) (messages : List ChatMessage)
          (st : RouterState) (i : Nat),
        3 ≤ failuresAt st.providers i →
        failuresAt (stream_chat beh model messages st).2.1.providers i
          = failuresAt st.providers i)
    ∧ (∀ (beh : Behavior) (model : String) (messages : List ChatMessage) (st : RouterState),
        (stream_chat beh model messages st).2.1.providers
          = ((stream_chat beh model messages st).2.2).foldl applyEvent st.providers) :=
  ⟨fun _ _ _ _ h => (get_provider_some_elim h).2.1,
   fun beh model messages st i h3 => streamChatAux_untouched beh model messages i 3 0 st h3,
   fun beh model messages st => streamChatAux_trace beh model messages 3 0 st⟩

/-- C4 witness: the three parts instantiated on concrete registries — a
selected provider is healthy; a provider at the threshold stays untouched by
a failing call; a call's final registry equals its event trace folded into
the initial one. -/
theorem health_invariant_witness :
    failuresAt [goodP] 0 < 3
    ∧ failuresAt (stream_chat behAllFail "m" [] ⟨[⟨"sick", ["*"], 3⟩], 0⟩).2.1.providers 0
        = failuresAt [⟨"sick", ["*"], 3⟩] 0
    ∧ (stream_chat behC1 "m" [] ⟨[goodP], 0⟩).2.1.providers
        = ((stream_chat behC1 "m" [] ⟨[goodP], 0⟩).2.2).foldl applyEvent [goodP] :=
  ⟨health_invariant.1 ⟨[goodP], 0⟩ "m" 0 ⟨[goodP], 0⟩ (by decide),
   health_invariant.2.1 behAllFail "m" [] ⟨[⟨"sick", ["*"], 3⟩], 0⟩ 0 (by decide),
   health_invariant.2.2 behC1 "m" [] ⟨[goodP], 0⟩⟩

/-- C9 counterexample: the claim "a successful `stream_chat` call never
increments any provider's failure counter" fails on the failover scenario
itself — the call completes successfully with `["Mock Response"]`, yet
`bad`'s counter was incremented from 0 to 1 by the failed first attempt
inside that same successful call. -/
theorem success_no_increment_counterexample :
    (stream_chat behC1 "test-model" [("user", "hi")] ⟨[badP, goodP], 1⟩).1
        = .success ["Mock Response"]
    ∧ failuresAt (stream_chat behC1 "test-model" [("user", "hi")]
        ⟨[badP, goodP], 1⟩).2.1.providers 0
      = failuresAt [badP, goodP] 0 + 1 := by
  decide

/-- C9 amended: the success itself never increments a counter — (1) a
`stream_chat` call whose first attempt succeeds leaves every provider's
failure counter at or below its initial value; (2) in any call, a provider's
counter can end above its initial value only if a `report_failure` event for
that provider (a failed attempt of it) occurs in the call's trace. -/
theorem success_no_increment_amended :
    (∀ (beh : Behavior) (model : String) (messages : List ChatMessage)
        (st : RouterState) (idx : Nat) (st1 : RouterState) (cs : List String) (i : Nat),
        get_provider st model = (some idx, st1) →
        beh 0 idx model messages = .succeeds cs →
        failuresAt (stream_chat beh model messages st).2.1.providers i
          ≤ failuresAt st.providers i)
    ∧ (∀ (beh : Behavior) (model : String) (messages : List ChatMessage)
          (st : RouterState) (i : Nat),
        failuresAt st.providers i
            < failuresAt (stream_chat beh model messages st).2.1.providers i →
        HealthEvent.failure i ∈ (stream_chat beh model messages st).2.2) := by
  constructor
  · intro beh model messages st idx st1 cs i hg hb
    have hpres : st1.providers = st.providers := by
      rw [← get_provider_providers st model, hg]
    unfold stream_chat
    rw [streamChatAux, hg]
    dsimp only
    rw [hb]
    dsimp only
    rw [applyAttemptState_providers, hpres]
    exact failuresAt_foldl_le _ _ _ (failure_not_mem_succeeds_events i idx cs)
  · intro beh model messages st i hlt
    unfold stream_chat at hlt ⊢
    by_contra hnot
    have hle := failuresAt_foldl_le _ st.providers i hnot
    rw [← streamChatAux_trace beh model messages 3 0 st] at hle
    omega

/-- C9 amended, witness: a first-attempt success does not raise the counter;
in the failover scenario the incremented provider indeed has a failure event
in the trace. -/
theorem success_no_increment_amended_witness :
    failuresAt (stream_chat (fun _ _ _ _ => .succeeds ["ok"]) "m" []
        ⟨[goodP], 0⟩).2.1.providers 0
      ≤ failuresAt [goodP] 0
    ∧ HealthEvent.failure 0
        ∈ (stream_chat behC1 "test-model" [("user", "hi")] ⟨[badP, goodP], 1⟩).2.2 :=
  ⟨success_no_increment_amended.1 (fun _ _ _ _ => .succeeds ["ok"]) "m" []
      ⟨[goodP], 0⟩ 0 ⟨[goodP], 0⟩ ["ok"] 0 (by decide) rfl,
   success_no_increment_amended.2 behC1 "test-model" [("user", "hi")]
      ⟨[badP, goodP], 1⟩ 0 (by decide)⟩

-- § Lemmas for round-robin fairness

lemma findFirstSlot_head (ps : List Provider) (model : String) (idx fuel : Nat)
    (he : eligAt ps model ((idx + 1) % ps.length) = true) :
    findFirstSlot ps model idx (fuel + 1) = some ((idx + 1) % ps.length) := by
  unfold findFirstSlot
  rw [List.range_succ_eq_map, List.map_cons]
  exact List.find?_cons_of_pos _ (by simpa using he)

lemma findFirstSlot_head_of_pos (ps : List Provider) (model : String) (idx fuel : Nat)
    (hfuel : 0 < fuel) (he : eligAt ps model ((idx + 1) % ps.length) = true) :
    findFirstSlot ps model idx fuel = some ((idx + 1) % ps.length) := by
  obtain ⟨f, rfl⟩ : ∃ f, fuel = f + 1 := ⟨fuel - 1, by omega⟩
  exact findFirstSlot_head ps model idx f he

lemma count_eq_one_of_nodup_of_mem {α : Type} [BEq α] [LawfulBEq α] {l : List α} {a : α}
    (hn : l.Nodup) (ha : a ∈ l) : List.count a l = 1 := by
  induction l with
  | nil => cases ha
  | cons b t ih =>
    rw [List.count_cons]
    rcases List.mem_cons.mp ha with rfl | hat
    · have hbt : a ∉ t := (List.nodup_cons.mp hn).1
      rw [List.count_eq_zero.mpr hbt]
      simp
    · have hnd := List.nodup_cons.mp hn
      have hne : (b == a) = false := by
        rw [beq_eq_false_iff_ne]
        intro h
        exact hnd.1 (by rw [h]; exact hat)
      rw [ih hnd.2 hat, hne]
      simp

lemma get_provider_all_eligible (ps : List Provider) (model : String) (c : Nat)
    (h : ps ≠ []) (he : ∀ p ∈ ps, eligible p model = true) :
    get_provider ⟨ps, c⟩ model
      = (some ((c + 1) % ps.length), ⟨ps, (c + 1) % ps.length⟩) := by
  have hn : 0 < ps.length := List.length_pos.mpr h
  have hlt : (c + 1) % ps.length < ps.length := Nat.mod_lt _ hn
  have helig : eligAt ps model ((c + 1) % ps.length) = true := by
    unfold eligAt
    rw [List.getElem?_eq_getElem hlt]
    exact he _ (List.getElem_mem hlt)
  rw [get_provider_eq_spec ⟨ps, c⟩ model h]
  have hfind : select_spec ⟨ps, c⟩ model = some ((c + 1) % ps.length) := by
    rw [select_spec_eq_findFirstSlot]
    exact findFirstSlot_head_of_pos ps model c ps.length hn helig
  rw [show cursor_after_spec ⟨ps, c⟩ model = (c + 1) % ps.length by
    unfold cursor_after_spec; rw [hfind], hfind]

lemma selectSeq_all_eligible (ps : List Provider) (model : String)
    (h : ps ≠ []) (he : ∀ p ∈ ps, eligible p model = true) :
    ∀ (m c : Nat),
      (selectSeq model m ⟨ps, c⟩).1
        = (List.range m).map (fun k => some ((c + 1 + k) % ps.length)) := by
  intro m
  induction m with
  | zero => intro c; rfl
  | succ m ih =>
    intro c
    rw [selectSeq]
    dsimp only
    rw [get_provider_all_eligible ps model c h he]
    dsimp only
    rw [ih ((c + 1) % ps.length)]
    rw [List.range_succ_eq_map, List.map_cons, List.map_map]
    congr 1
    refine congrArg (fun g => (List.range m).map g) (funext fun k => ?_)
    show some (((c + 1) % ps.length + 1 + k) % ps.length)
        = some ((c + 1 + Nat.succ k) % ps.length)
    congr 1
    rw [Nat.add_assoc, Nat.mod_add_mod]
    congr 1
    omega

lemma scan_indices_nodup (n c : Nat) :
    ((List.range n).map (fun k => (c + 1 + k) % n)).Nodup := by
  refine List.Nodup.map_on ?_ (List.nodup_range n)
  intro x hx y hy hxy
  rw [List.mem_range] at hx hy
  have hm : Nat.ModEq n (c + 1 + x) (c + 1 + y) := hxy
  have h2 : Nat.ModEq n x y := Nat.ModEq.add_left_cancel' (c + 1) hm
  have h3 : x % n = y % n := h2
  rwa [Nat.mod_eq_of_lt hx, Nat.mod_eq_of_lt hy] at h3

lemma scan_indices_mem (n c i : Nat) (hn : 0 < n) (hi : i < n) :
    i ∈ (List.range n).map (fun k => (c + 1 + k) % n) := by
  rw [List.mem_map]
  refine ⟨(n + i - (c + 1) % n) % n, List.mem_range.mpr (Nat.mod_lt _ hn), ?_⟩
  have ha : (c + 1) % n < n := Nat.mod_lt _ hn
  have hq : n * ((c + 1) / n) + (c + 1) % n = c + 1 := Nat.div_add_mod (c + 1) n
  rw [Nat.add_mod_mod]
  have h2 : c + 1 + (n + i - (c + 1) % n) = n * ((c + 1) / n) + (n + i) := by
    omega
  rw [h2, Nat.mul_add_mod, Nat.add_mod_left, Nat.mod_eq_of_lt hi]

/-- C6: Round-robin fairness — with a non-empty registry whose providers are
all healthy and all carry the wildcard model, the `N = length` consecutive
`get_provider` calls starting from any cursor return the slots
`(cursor + 1 + k) mod N` in order, and each registry slot is returned exactly
once before any repeats. -/
theorem round_robin_fairness (st : RouterState) (model : String)
    (hne : st.providers ≠ [])
    (helig : ∀ p ∈ st.providers, healthy p = true ∧ p.models.contains "*" = true) :
    (selectSeq model st.providers.length st).1
      = (List.range st.providers.length).map
          (fun k => some ((st.current_index + 1 + k) % st.providers.length))
    ∧ ∀ i < st.providers.length,
        ((selectSeq model st.providers.length st).1.count (some i)) = 1 := by
  have he : ∀ p ∈ st.providers, eligible p model = true := by
    intro p hp
    rcases helig p hp with ⟨h1, h2⟩
    simp only [eligible, supports, h1, h2, Bool.true_and, Bool.true_or]
  obtain ⟨ps, c⟩ := st
  have hn : 0 < ps.length := List.length_pos.mpr hne
  have hseq := selectSeq_all_eligible ps model hne he ps.length c
  refine ⟨hseq, ?_⟩
  intro i hi
  rw [hseq]
  rw [show (fun k => some ((c + 1 + k) % ps.length))
      = some ∘ (fun k => (c + 1 + k) % ps.length) from rfl]
  rw [← List.map_map]
  refine count_eq_one_of_nodup_of_mem
    (List.Nodup.map (Option.some_injective Nat) (scan_indices_nodup ps.length c)) ?_
  exact List.mem_map_of_mem some (scan_indices_mem ps.length c i hn hi)

/-- C6 witness: two healthy wildcard providers, cursor 0 — each of the two
slots is selected exactly once over two consecutive calls. -/
theorem round_robin_fairness_witness :
    ((selectSeq "m" ([bad1P, bad2P]).length ⟨[bad1P, bad2P], 0⟩).1.count (some 0)) = 1
    ∧ ((selectSeq "m" ([bad1P, bad2P]).length ⟨[bad1P, bad2P], 0⟩).1.count (some 1)) = 1 :=
  ⟨(round_robin_fairness ⟨[bad1P, bad2P], 0⟩ "m" (by decide) (by decide)).2 0 (by decide),
   (round_robin_fairness ⟨[bad1P, bad2P], 0⟩ "m" (by decide) (by decide)).2 1 (by decide)⟩

-- § Lemmas for the SSE line loop

lemma processEvents_skip_malformed (jl : String → Option Json) (l : String)
    (rest : List String)
    (h1 : pyStartsWith l "data: " = true)
    (h2 : pyStrip (l.drop 6) ≠ "[DONE]")
    (h3 : jl (l.drop 6) = none) :
    processEvents jl (l :: rest) = processEvents jl rest := by
  rw [processEvents]
  dsimp only
  rw [if_pos h1, if_neg h2, h3]

lemma processEvents_yield (jl : String → Option Json) (l : String)
    (rest : List String) (c : String)
    (h1 : pyStartsWith l "data: " = true)
    (h2 : pyStrip (l.drop 6) ≠ "[DONE]")
    (h3 : jl (l.drop 6) = some (validFragmentJson c))
    (h7 : c ≠ "") :
    processEvents jl (l :: rest)
      = (Json.str c :: (processEvents jl rest).1, (processEvents jl rest).2) := by
  rw [processEvents]
  dsimp only
  rw [if_pos h1, if_neg h2, h3]
  dsimp only
  rw [show extractContent (validFragmentJson c) = Except.ok (Json.str c) from rfl]
  have htr : jsonTruthy (Json.str c) = true := by
    simp [jsonTruthy, h7]
  dsimp only
  rw [if_pos htr]

lemma processEvents_done (jl : String → Option Json) (rest : List String) :
    processEvents jl ("data: [DONE]" :: rest) = ([], none) := by
  rw [processEvents]
  dsimp only
  rw [if_pos (by decide : pyStartsWith "data: [DONE]" "data: " = true),
    if_pos (by decide : pyStrip ("data: [DONE]".drop 6) = "[DONE]")]

/-- C7: Remote-HTTP parsing — on a 200 response whose line stream is one
`data: `-marked line whose payload fails `json.loads`, then one `data: `
line carrying a well-formed fragment at `choices[0].delta.content`, then the
sentinel `data: [DONE]` (followed by anything), the produced fragment
sequence is exactly the one valid fragment and the loop terminates normally
(no escaping exception): the malformed line is skipped without failing the
attempt, and the sentinel stops processing. -/
theorem openai_sse_parsing (jl : String → Option Json) (name l1 l2 : String)
    (rest : List String) (c : String)
    (h1 : pyStartsWith l1 "data: " = true)
    (h2 : pyStrip (l1.drop 6) ≠ "[DONE]")
    (h3 : jl (l1.drop 6) = none)
    (h4 : pyStartsWith l2 "data: " = true)
    (h5 : pyStrip (l2.drop 6) ≠ "[DONE]")
    (h6 : jl (l2.drop 6) = some (validFragmentJson c))
    (h7 : c ≠ "") :
    openai_stream_chat name jl 200 (l1 :: l2 :: "data: [DONE]" :: rest)
      = ([Json.str c], none) := by
  unfold openai_stream_chat
  rw [if_neg (by omega : ¬(200 : Nat) ≠ 200)]
  rw [processEvents_skip_malformed jl l1 _ h1 h2 h3,
    processEvents_yield jl l2 _ c h4 h5 h6 h7,
    processEvents_done jl rest]

/-- Concrete `json.loads` stub for the C7 witness: `"bad"` is malformed,
`"good"` parses to a well-formed fragment event carrying `"Hi"`. -/
def jlW : String → Option Json := fun s =>
  if s = "bad" then none
  else if s = "good" then some (validFragmentJson "Hi")
  else none

/-- C7 witness: the parsing scenario instantiated on concrete lines. -/
theorem openai_sse_parsing_witness :
    openai_stream_chat "api" jlW 200 ["data: bad", "data: good", "data: [DONE]"]
      = ([Json.str "Hi"], none) :=
  openai_sse_parsing jlW "api" "data: bad" "data: good" [] "Hi"
    (by decide) (by decide) rfl (by decide) (by decide) rfl (by decide)
